import Mathlib

/-!
Verification of pgtool (pgtool.go): a PostgreSQL backup/restore CLI.

The program is shallowly embedded as pure Lean functions over an explicit
filesystem state.  External effects that the program cannot observe except
through success/failure (open/create/copy errors of the OS, the exit status
of the external pg_dump / pg_restore processes, the wall clock) are passed
in as environment records, so every run of the tool is a total function of
its inputs and that environment.

Go semantics that matter here and are modelled faithfully:
  - os.Exit terminates the process immediately WITHOUT running deferred
    functions, so a `defer os.Remove(...)` that is followed on some path by
    os.Exit(1) does not remove the file on that path (runRestore line 150
    vs lines 148/171 of pgtool.go);
  - `defer gw.Close()` in compressFile discards the error of closing the
    gzip writer: compressFile returns only the error of io.Copy (or of the
    earlier open/create stages);
  - a Go slice expression s[:len(s)-3] panics when len(s) < 3.
-/

namespace Pgtool

/-- One filesystem object: a path, whether it is a directory, its
last-modified time (seconds), and its byte content (empty for directories). -/
structure FileEntry where
  path : String
  isDir : Bool
  mtime : Nat
  content : List Nat
  deriving DecidableEq, Repr

/-- The filesystem state: a finite list of entries.  All operations are
path-keyed; `setFile` and `removePath` affect every entry at the path. -/
abbrev FS := List FileEntry

/-- os.Stat succeeds: some entry (file or directory) lives at this path. -/
def pathExists (fs : FS) (p : String) : Bool :=
  fs.any (fun e => e.path = p)

/-- Read the content of the entry at a path, if any. -/
def readFile (fs : FS) (p : String) : Option (List Nat) :=
  (fs.find? (fun e => e.path = p)).map (fun e => e.content)

/-- os.Remove: delete the entry at the path (no error observed by claims). -/
def removePath (fs : FS) (p : String) : FS :=
  fs.filter (fun e => !(e.path = p : Bool))

/-- os.Create: truncate-create a regular file at the path with the given
content and modification time. -/
def setFile (fs : FS) (p : String) (c : List Nat) (t : Nat) : FS :=
  ⟨p, false, t, c⟩ :: removePath fs p

/-- os.OpenFile with O_APPEND|O_CREATE: create the file if absent, keep it
untouched otherwise (the log is append-only; its text is not modelled). -/
def ensureFile (fs : FS) (p : String) (t : Nat) : FS :=
  if pathExists fs p then fs else ⟨p, false, t, []⟩ :: fs

/-- filepath.Ext: scan the path backwards; the suffix from the final dot,
empty when a path separator is reached first (Go path/filepath). -/
def extFromRev : List Char → List Char → String
  | [], _ => ""
  | c :: rest, acc =>
    if c = '/' then ""
    else if c = '.' then String.mk (c :: acc)
    else extFromRev rest (c :: acc)

/-- filepath.Ext of a path. -/
def filepathExt (p : String) : String :=
  extFromRev p.data.reverse []

/-- filepath.Join for already-clean components (the Clean normalisation of
Go's Join is the identity on the clean paths the tool builds). -/
def filepathJoin (dir name : String) : String :=
  if dir = "" then name else dir ++ "/" ++ name

/-- Character-list prefix test (kept elementary so that concrete runs of the
model reduce inside the kernel). -/
def isPrefixList : List Char → List Char → Bool
  | [], _ => true
  | _ :: _, [] => false
  | a :: as, b :: bs => a = b && isPrefixList as bs

/-- Whether filepath.Walk rooted at dir visits this path. -/
def underDir (dir p : String) : Bool :=
  p = dir || isPrefixList (dir ++ "/").data p.data

/-- The compression codec.  pgtool streams bytes through compress/gzip,
which is Go standard-library code outside this repository; the codec is
therefore kept abstract as a pair of byte-sequence transforms, and the
round-trip law is a hypothesis discharged by the gzip format. -/
structure Codec where
  comp : List Nat → List Nat
  dec : List Nat → List Nat

/-- Outcomes of the four I/O stages of compressFile, as the environment
decides them: opening the source, creating the destination, copying through
the gzip writer, and closing the gzip writer (flushing the trailing frame). -/
structure CompressEnv where
  openErr : Option String
  createErr : Option String
  copyErr : Option String
  closeErr : Option String
  deriving DecidableEq, Repr

/-- compressFile src dst (pgtool.go lines 178-196): open src, create dst,
copy src through a gzip writer into dst, return the copy error.  The gzip
writer is closed by a deferred call whose error is DISCARDED, exactly as
`defer gw.Close()` does in the source; `closeErr` is therefore never
returned.  A failed copy leaves the created destination file behind with
partial (here: empty) content. -/
def compressFile (cod : Codec) (env : CompressEnv) (fs : FS) (src dst : String)
    (t : Nat) : Option String × FS :=
  match env.openErr with
  | some e => (some e, fs)
  | none =>
    match env.createErr with
    | some e => (some e, fs)
    | none =>
      let data := (readFile fs src).getD []
      match env.copyErr with
      | some e => (some e, setFile fs dst [] t)
      | none => (none, setFile fs dst (cod.comp data) t)

/-- Outcomes of the I/O stages of decompressFile: opening the source,
gzip.NewReader (header check), creating the destination, and copying. -/
structure DecompressEnv where
  openErr : Option String
  readerErr : Option String
  createErr : Option String
  copyErr : Option String
  deriving DecidableEq, Repr

/-- decompressFile src dst (pgtool.go lines 198-219): open src, wrap it in
a gzip reader, create dst, copy all decompressed bytes into dst, returning
the first error.  A failed copy leaves the created destination file behind
with partial (here: empty) content. -/
def decompressFile (cod : Codec) (env : DecompressEnv) (fs : FS)
    (src dst : String) (t : Nat) : Option String × FS :=
  match env.openErr with
  | some e => (some e, fs)
  | none =>
    match env.readerErr with
    | some e => (some e, fs)
    | none =>
      match env.createErr with
      | some e => (some e, fs)
      | none =>
        let data := (readFile fs src).getD []
        match env.copyErr with
        | some e => (some e, setFile fs dst [] t)
        | none => (none, setFile fs dst (cod.dec data) t)

/-- A wall-clock reading broken into calendar fields, as time.Now().Format
consumes it. -/
structure Timestamp where
  year : Nat
  month : Nat
  day : Nat
  hour : Nat
  minute : Nat
  second : Nat
  deriving DecidableEq, Repr

/-- Two-digit zero-padded decimal, as the Go layout components 01/02/15/04/05
render month, day, hour, minute and second. -/
def pad2 (n : Nat) : String :=
  if n < 10 then "0" ++ toString n else toString n

/-- Four-digit zero-padded decimal, as the Go layout component 2006 renders
the year. -/
def pad4 (n : Nat) : String :=
  if n < 10 then "000" ++ toString n
  else if n < 100 then "00" ++ toString n
  else if n < 1000 then "0" ++ toString n
  else toString n

/-- time.Now().Format("2006-01-02_150405") (pgtool.go line 74). -/
def goFormatTimestamp (ts : Timestamp) : String :=
  pad4 ts.year ++ "-" ++ pad2 ts.month ++ "-" ++ pad2 ts.day ++ "_" ++
    pad2 ts.hour ++ pad2 ts.minute ++ pad2 ts.second

/-- The uncompressed dump path built at pgtool.go line 75:
filepath.Join(backupDir, fmt.Sprintf("%s_%s.dump", dbName, timestamp)). -/
def backupFilePath (backupDir dbName : String) (ts : Timestamp) : String :=
  filepathJoin backupDir (dbName ++ "_" ++ goFormatTimestamp ts ++ ".dump")

/-- The compressed artifact path built at pgtool.go line 110:
backupFile + ".gz". -/
def compressedFilePath (backupDir dbName : String) (ts : Timestamp) : String :=
  backupFilePath backupDir dbName ts ++ ".gz"

/-- Per-file body of the filepath.Walk closure in cleanupOldBackups
(pgtool.go lines 230-238): the sweep attempts deletion exactly on visited
regular files with extension ".gz" whose modification time is strictly
before the cutoff. -/
def sweepTarget (dir : String) (cutoff : Int) (e : FileEntry) : Bool :=
  underDir dir e.path && !e.isDir && filepathExt e.path == ".gz" &&
    decide ((e.mtime : Int) < cutoff)

/-- cleanupOldBackups (pgtool.go lines 221-243): walk the backup directory
and delete every old compressed artifact; cutoff = now.AddDate(0,0,-retentionDays),
modelled in seconds.  retentionDays is an int in Go, so it may be negative. -/
def cleanupOldBackups (fs : FS) (dir : String) (retentionDays : Int)
    (sweepNow : Int) : FS :=
  let cutoff := sweepNow - retentionDays * 86400
  fs.filter (fun e => !sweepTarget dir cutoff e)

/-- The environment of one backup run: whether the log open, the dump-file
create and the external pg_dump succeed, the bytes pg_dump writes, the
compression stage outcomes, the calendar reading used for the filename, the
epoch reading stamped on created files, and the clock reading taken inside
cleanupOldBackups (the source calls time.Now() twice, lines 74 and 225). -/
structure BackupEnv where
  logOpenOk : Bool
  createOk : Bool
  dumpOk : Bool
  dumpBytes : List Nat
  cenv : CompressEnv
  nowTS : Timestamp
  now : Nat
  sweepNow : Int
  deriving Repr

/-- Result of a run that cannot panic: exit code, final filesystem, and how
many external archiver processes were launched. -/
structure RunResult where
  exit : Nat
  fs : FS
  procs : Nat
  deriving DecidableEq, Repr

/-- runBackup (pgtool.go lines 52-123), faithful to the source order:
validate dbName, stat the backup directory, open the log, create the dump
file, run pg_dump (removing the partial dump on failure), compress (exit 1
on failure, leaving the uncompressed dump in place), remove the uncompressed
dump, then sweep old backups.  Every os.Exit(1) is an early return. -/
def runBackup (cod : Codec) (env : BackupEnv)
    (dbName dbUser dbHost backupDir logFile : String) (retentionDays : Int)
    (fs : FS) : RunResult :=
  if dbName = "" then ⟨1, fs, 0⟩
  else if !pathExists fs backupDir then ⟨1, fs, 0⟩
  else if !env.logOpenOk then ⟨1, fs, 0⟩
  else
    let fs1 := ensureFile fs logFile env.now
    let bfile := backupFilePath backupDir dbName env.nowTS
    if !env.createOk then ⟨1, fs1, 0⟩
    else
      let fs2 := setFile fs1 bfile [] env.now
      if !env.dumpOk then ⟨1, removePath fs2 bfile, 1⟩
      else
        let fs3 := setFile fs2 bfile env.dumpBytes env.now
        let comp := compressFile cod env.cenv fs3 bfile (bfile ++ ".gz") env.now
        match comp.1 with
        | some _ => ⟨1, comp.2, 1⟩
        | none =>
          let fs5 := removePath comp.2 bfile
          ⟨0, cleanupOldBackups fs5 backupDir retentionDays env.sweepNow, 1⟩

/-- The environment of one restore run: whether the log open succeeds, the
decompression stage outcomes, whether the external pg_restore succeeds, and
the epoch reading stamped on created files. -/
structure RestoreEnv where
  logOpenOk : Bool
  denv : DecompressEnv
  restoreOk : Bool
  now : Nat
  deriving Repr

/-- Outcome of a restore run: either a Go runtime panic (slice bounds out of
range) or process exit with a code, the final filesystem, and the number of
external archiver processes launched. -/
inductive RestoreResult where
  | panicked (fs : FS)
  | exited (code : Nat) (fs : FS) (procs : Nat)
  deriving DecidableEq, Repr

/-- The filesystem left behind by a restore run. -/
def RestoreResult.finalFS : RestoreResult → FS
  | .panicked fs => fs
  | .exited _ fs _ => fs

/-- The exit code of a restore run, none when it panicked. -/
def RestoreResult.exitCode : RestoreResult → Option Nat
  | .panicked _ => none
  | .exited c _ _ => some c

/-- runRestore (pgtool.go lines 125-176), faithful to the source order:
validate dbName and backupFile, open the log, derive the temp path by
backupFile[:len(backupFile)-3] (a Go slice that PANICS when the length is
1 or 2), decompress (exit 1 on failure — note a mid-copy failure has already
created the temp file), then run pg_restore.  The deferred
os.Remove(tempFile) of line 150 runs only on the normal return of line 176:
os.Exit(1) at line 171 terminates without running deferred calls, so on a
failed pg_restore the temp file is left behind. -/
def runRestore (cod : Codec) (env : RestoreEnv)
    (dbName dbUser dbHost backupFile logFile : String) (fs : FS) :
    RestoreResult :=
  if dbName = "" ∨ backupFile = "" then .exited 1 fs 0
  else if !env.logOpenOk then .exited 1 fs 0
  else
    let fs1 := ensureFile fs logFile env.now
    if backupFile.length < 3 then .panicked fs1
    else
      let temp := backupFile.take (backupFile.length - 3)
      let d := decompressFile cod env.denv fs1 backupFile temp env.now
      match d.1 with
      | some _ => .exited 1 d.2 0
      | none =>
        if !env.restoreOk then .exited 1 d.2 1
        else .exited 0 (removePath d.2 temp) 1

/-- A concrete codec instance (used to run the model on concrete inputs). -/
def idCodec : Codec := ⟨fun b => b, fun b => b⟩

/-- A concrete non-trivial invertible codec instance for round-trip runs. -/
def revCodec : Codec := ⟨List.reverse, List.reverse⟩

/-- The artifact naming exactly as the specification words it:
backupDir/db_YYYY-MM-DD_HHMMSS.dump (compared against the path the source
builds). -/
def specBackupPath (backupDir dbName : String) (ts : Timestamp) : String :=
  backupDir ++ "/" ++ dbName ++ "_" ++ pad4 ts.year ++ "-" ++ pad2 ts.month ++ "-" ++
    pad2 ts.day ++ "_" ++ pad2 ts.hour ++ pad2 ts.minute ++ pad2 ts.second ++ ".dump"

/-- A compression run in which every stage succeeds except closing the gzip
writer (the flush of the trailing frame fails, e.g. the disk fills up). -/
def gzipCloseFailure : CompressEnv := ⟨none, none, none, some "gzip close failed"⟩

/-! ### Basic facts about the filesystem model -/

theorem pathExists_iff (fs : FS) (p : String) :
    pathExists fs p = true ↔ ∃ e ∈ fs, e.path = p := by
  simp [pathExists]

theorem pathExists_eq_false_iff (fs : FS) (p : String) :
    pathExists fs p = false ↔ ∀ e ∈ fs, e.path ≠ p := by
  simp [pathExists]

theorem mem_removePath (fs : FS) (q : String) (e : FileEntry) :
    e ∈ removePath fs q ↔ e ∈ fs ∧ e.path ≠ q := by
  simp [removePath]

theorem pathExists_removePath_self (fs : FS) (p : String) :
    pathExists (removePath fs p) p = false := by
  rw [pathExists_eq_false_iff]
  intro e he
  exact ((mem_removePath fs p e).1 he).2

theorem pathExists_removePath_of_ne (fs : FS) (p q : String) (h : p ≠ q) :
    pathExists (removePath fs q) p = pathExists fs p := by
  rcases hfs : pathExists fs p with _ | _
  · rw [pathExists_eq_false_iff] at hfs ⊢
    intro e he
    exact hfs e ((mem_removePath fs q e).1 he).1
  · rw [pathExists_iff] at hfs ⊢
    rcases hfs with ⟨e, he, hp⟩
    exact ⟨e, (mem_removePath fs q e).2 ⟨he, by rw [hp]; exact h⟩, hp⟩

theorem pathExists_setFile_self (fs : FS) (p : String) (c : List Nat) (t : Nat) :
    pathExists (setFile fs p c t) p = true := by
  rw [pathExists_iff]
  exact ⟨⟨p, false, t, c⟩, List.mem_cons_self _ _, rfl⟩

theorem pathExists_setFile_of_ne (fs : FS) (p q : String) (c : List Nat) (t : Nat)
    (h : p ≠ q) :
    pathExists (setFile fs q c t) p = pathExists fs p := by
  rcases hfs : pathExists fs p with _ | _
  · rw [pathExists_eq_false_iff] at hfs ⊢
    intro e he
    rcases List.mem_cons.1 he with he' | he'
    · rw [he']
      exact fun hc => h hc.symm
    · exact hfs e ((mem_removePath fs q e).1 he').1
  · rw [pathExists_iff] at hfs ⊢
    rcases hfs with ⟨e, he, hp⟩
    exact ⟨e, List.mem_cons.2 (Or.inr ((mem_removePath fs q e).2
      ⟨he, by rw [hp]; exact h⟩)), hp⟩

theorem pathExists_ensureFile_of_ne (fs : FS) (p q : String) (t : Nat) (h : p ≠ q) :
    pathExists (ensureFile fs q t) p = pathExists fs p := by
  unfold ensureFile
  rcases hq : pathExists fs q with _ | _
  · rw [if_neg (by decide)]
    rcases hfs : pathExists fs p with _ | _
    · rw [pathExists_eq_false_iff] at hfs ⊢
      intro e he
      rcases List.mem_cons.1 he with he' | he'
      · rw [he']
        exact fun hc => h hc.symm
      · exact hfs e he'
    · rw [pathExists_iff] at hfs ⊢
      rcases hfs with ⟨e, he, hp⟩
      exact ⟨e, List.mem_cons.2 (Or.inr he), hp⟩
  · rw [if_pos rfl]

theorem pathExists_filter_false (fs : FS) (q : FileEntry → Bool) (p : String)
    (h : pathExists fs p = false) : pathExists (fs.filter q) p = false := by
  rw [pathExists_eq_false_iff] at h ⊢
  intro e he
  exact h e (List.mem_filter.1 he).1

theorem readFile_setFile_same (fs : FS) (p : String) (c : List Nat) (t : Nat) :
    readFile (setFile fs p c t) p = some c := by
  simp [readFile, setFile, List.find?]

theorem append_gz_ne (s : String) : s ++ ".gz" ≠ s := by
  intro h
  have hl := congrArg String.length h
  rw [String.length_append] at hl
  have h3 : (".gz" : String).length = 3 := rfl
  omega

theorem compressFile_fst (cod : Codec) (env : CompressEnv) (fs : FS)
    (src dst : String) (t : Nat) :
    (compressFile cod env fs src dst t).1 =
      env.openErr.orElse (fun _ => env.createErr.orElse (fun _ => env.copyErr)) := by
  rcases env with ⟨o, c, cp, cl⟩
  cases o <;> cases c <;> cases cp <;> rfl

theorem pathExists_compressFile_src (cod : Codec) (env : CompressEnv) (fs : FS)
    (src dst : String) (t : Nat) (hne : src ≠ dst)
    (hsrc : pathExists fs src = true) :
    pathExists (compressFile cod env fs src dst t).2 src = true := by
  rcases env with ⟨o, c, cp, cl⟩
  cases o
  · cases c
    · cases cp
      · rw [show (compressFile cod ⟨none, none, none, cl⟩ fs src dst t).2 =
            setFile fs dst (cod.comp ((readFile fs src).getD [])) t from rfl]
        rw [pathExists_setFile_of_ne fs src dst _ t hne]
        exact hsrc
      · rw [show (compressFile cod ⟨none, none, some _, cl⟩ fs src dst t).2 =
            setFile fs dst [] t from rfl]
        rw [pathExists_setFile_of_ne fs src dst _ t hne]
        exact hsrc
    · exact hsrc
  · exact hsrc

theorem compressedFilePath_def (backupDir dbName : String) (ts : Timestamp) :
    compressedFilePath backupDir dbName ts = backupFilePath backupDir dbName ts ++ ".gz" :=
  rfl

theorem compressedFilePath_ne (backupDir dbName : String) (ts : Timestamp) :
    compressedFilePath backupDir dbName ts ≠ backupFilePath backupDir dbName ts :=
  append_gz_ne _

theorem pathExists_cleanup_of_not_exists (fs : FS) (dir : String) (r n : Int)
    (p : String) (h : pathExists fs p = false) :
    pathExists (cleanupOldBackups fs dir r n) p = false := by
  simp only [cleanupOldBackups]
  exact pathExists_filter_false _ _ _ h

theorem mem_setFile_self (fs : FS) (p : String) (c : List Nat) (t : Nat) :
    (⟨p, false, t, c⟩ : FileEntry) ∈ setFile fs p c t :=
  List.mem_cons_self _ _

theorem pathExists_cleanup_keep (fs : FS) (dir : String) (r n : Int) (e : FileEntry)
    (hmem : e ∈ fs) (hkeep : sweepTarget dir (n - r * 86400) e = false) :
    pathExists (cleanupOldBackups fs dir r n) e.path = true := by
  rw [pathExists_iff]
  exact ⟨e, by simp [cleanupOldBackups, List.mem_filter, hmem, hkeep], rfl⟩

/-! ### The claims -/

/-- C1: the claim states that after every restore run that passes validation —
whether decompression fails, the external restore process fails, or the run
succeeds — the temporary decompressed file does not exist on disk.  The code
clearly intends this (`defer os.Remove(tempFile)` at pgtool.go line 150), but
every failure path leaves through os.Exit(1), which in Go terminates the
process WITHOUT running deferred functions.  This theorem evaluates the model
at the failing input: a restore of /b/x.dump.gz in which decompression
succeeds and pg_restore exits non-zero terminates with exit code 1 while the
temporary file /b/x.dump still exists on disk. -/
theorem c1_temp_file_survives_failed_restore :
    (runRestore idCodec ⟨true, ⟨none, none, none, none⟩, false, 200⟩ "d" "postgres"
        "localhost" "/b/x.dump.gz" "/log"
        [⟨"/b", true, 0, []⟩, ⟨"/b/x.dump.gz", false, 100, [7, 7]⟩]).exitCode = some 1 ∧
    pathExists (runRestore idCodec ⟨true, ⟨none, none, none, none⟩, false, 200⟩ "d" "postgres"
        "localhost" "/b/x.dump.gz" "/log"
        [⟨"/b", true, 0, []⟩, ⟨"/b/x.dump.gz", false, 100, [7, 7]⟩]).finalFS
      "/b/x.dump" = true :=
  ⟨rfl, rfl⟩

/-- C2 counterexample: a backup run with retentionDays = 0 in which every
stage succeeds, started at second 1000 with the retention sweep reading the
clock at second 1001, completes successfully (exit 0) yet the compressed
artifact /b/d_2025-08-09_114200.dump.gz does NOT exist afterward: the sweep's
cutoff is its own clock reading, so the just-created artifact is already
older than the cutoff and is deleted.  This falsifies the claim as stated,
which asserts the artifact exists after every successful run. -/
theorem c2_fresh_artifact_swept_counterexample :
    (runBackup idCodec ⟨true, true, true, [1, 2], ⟨none, none, none, none⟩,
        ⟨2025, 8, 9, 11, 42, 0⟩, 1000, 1001⟩ "d" "postgres" "localhost" "/b" "/log" 0
        [⟨"/b", true, 0, []⟩]).exit = 0 ∧
    pathExists (runBackup idCodec ⟨true, true, true, [1, 2], ⟨none, none, none, none⟩,
        ⟨2025, 8, 9, 11, 42, 0⟩, 1000, 1001⟩ "d" "postgres" "localhost" "/b" "/log" 0
        [⟨"/b", true, 0, []⟩]).fs "/b/d_2025-08-09_114200.dump.gz" = false :=
  ⟨rfl, by decide⟩

/-- C5: for every file visited by the retention sweep, it is deleted if and
only if it is a regular file, its extension is ".gz", and its last-modified
time is strictly before the sweep clock minus retentionDays (in seconds);
directories and files lacking the ".gz" extension are never touched,
whatever their age. -/
theorem c5_sweep_deletes_iff (fs : FS) (dir : String) (retentionDays sweepNow : Int)
    (e : FileEntry) (hmem : e ∈ fs) (hvisit : underDir dir e.path = true) :
    e ∉ cleanupOldBackups fs dir retentionDays sweepNow ↔
      e.isDir = false ∧ filepathExt e.path = ".gz" ∧
        (e.mtime : Int) < sweepNow - retentionDays * 86400 := by
  simp only [cleanupOldBackups, List.mem_filter, hmem, sweepTarget, hvisit]
  simp [hmem, hvisit]
  constructor
  · rintro ⟨⟨h1, h2⟩, h3⟩
    exact ⟨h1, h2, by omega⟩
  · rintro ⟨h1, h2, h3⟩
    exact ⟨⟨h1, h2⟩, by omega⟩

/-- C5 witness: a 7-day sweep run at second 700·86400 deletes the regular
file /b/old.gz last modified at second 100. -/
theorem c5_sweep_deletes_iff_witness :
    (⟨"/b/old.gz", false, 100, []⟩ : FileEntry) ∉
      cleanupOldBackups [⟨"/b/old.gz", false, 100, []⟩] "/b" 7 (700 * 86400) :=
  (c5_sweep_deletes_iff [⟨"/b/old.gz", false, 100, []⟩] "/b" 7 (700 * 86400)
    ⟨"/b/old.gz", false, 100, []⟩ (by decide) (by decide)).mpr ⟨rfl, rfl, by decide⟩

/-- C7: for all (db, backupDir, timestamp) with a non-empty backup directory,
the uncompressed dump path the source computes equals
backupDir/db_YYYY-MM-DD_HHMMSS.dump exactly as the specification words it,
and the compressed artifact path is that value with ".gz" appended. -/
theorem c7_backup_paths (backupDir dbName : String) (ts : Timestamp)
    (hdir : backupDir ≠ "") :
    backupFilePath backupDir dbName ts = specBackupPath backupDir dbName ts ∧
    compressedFilePath backupDir dbName ts = specBackupPath backupDir dbName ts ++ ".gz" := by
  have h1 : backupFilePath backupDir dbName ts = specBackupPath backupDir dbName ts := by
    simp [backupFilePath, specBackupPath, filepathJoin, goFormatTimestamp, hdir,
      String.append_assoc]
  exact ⟨h1, by rw [compressedFilePath, h1]⟩

/-- C7 witness: the paths of the README example backup. -/
theorem c7_backup_paths_witness :
    backupFilePath "/var/backups/postgresql" "mydatabase" ⟨2025, 8, 9, 11, 42, 0⟩ =
      specBackupPath "/var/backups/postgresql" "mydatabase" ⟨2025, 8, 9, 11, 42, 0⟩ ∧
    compressedFilePath "/var/backups/postgresql" "mydatabase" ⟨2025, 8, 9, 11, 42, 0⟩ =
      specBackupPath "/var/backups/postgresql" "mydatabase" ⟨2025, 8, 9, 11, 42, 0⟩ ++ ".gz" :=
  c7_backup_paths "/var/backups/postgresql" "mydatabase" ⟨2025, 8, 9, 11, 42, 0⟩ (by decide)

/-- C9 counterexample: a compression run in which opening, creating and
copying all succeed but closing the gzip writer (the flush of the trailing
frame) fails returns nil (none) to its caller: the claim that compressFile
surfaces a failure of ANY stage, the compressor close included, and returns
nil only when every stage succeeded, is false — `defer gw.Close()` discards
the close error. -/
theorem c9_close_error_swallowed_counterexample :
    (compressFile idCodec gzipCloseFailure [⟨"/a", false, 0, [1, 2]⟩] "/a" "/a.gz" 5).1 =
      none ∧
    gzipCloseFailure.closeErr = some "gzip close failed" :=
  ⟨rfl, rfl⟩

/-- C9 amended: compressFile surfaces the first error among opening the
source, creating the destination and copying bytes through the compressor,
and returns nil exactly when those three stages succeed; the error of
closing the compressor (flushing the trailing frame) is discarded by the
deferred close and never reaches the caller. -/
theorem c9_compress_error_passthrough (cod : Codec) (env : CompressEnv) (fs : FS)
    (src dst : String) (t : Nat) :
    (compressFile cod env fs src dst t).1 =
      env.openErr.orElse (fun _ => env.createErr.orElse (fun _ => env.copyErr)) :=
  compressFile_fst cod env fs src dst t

/-- C10: a restore invocation with a non-empty database name, a non-empty
file argument shorter than 3 characters, and an openable log file reaches
the slice backupFile[:len(backupFile)-3], whose bound is negative: the run
panics (after having opened/created the log file) instead of exiting with
status 1 through the normal error path. -/
theorem c10_short_file_panics (cod : Codec) (denv : DecompressEnv) (restoreOk : Bool)
    (now : Nat) (dbName dbUser dbHost backupFile logFile : String) (fs : FS)
    (hdb : dbName ≠ "") (hne : backupFile ≠ "") (hlen : backupFile.length < 3) :
    runRestore cod ⟨true, denv, restoreOk, now⟩ dbName dbUser dbHost backupFile logFile fs =
      .panicked (ensureFile fs logFile now) := by
  unfold runRestore
  rw [if_neg (by rintro (h | h); exact hdb h; exact hne h)]
  simp [hlen]

/-- C10 witness: restoring from the two-character path "ab" panics. -/
theorem c10_short_file_panics_witness :
    runRestore idCodec ⟨true, ⟨none, none, none, none⟩, true, 5⟩ "d" "postgres"
        "localhost" "ab" "/log" [] =
      .panicked (ensureFile [] "/log" 5) :=
  c10_short_file_panics idCodec ⟨none, none, none, none⟩ true 5 "d" "postgres"
    "localhost" "ab" "/log" [] (by decide) (by decide) (by decide)

/-- C8: missing required arguments and a missing backup directory fail fast:
backup with an empty db name, backup against a non-existent backup
directory, restore with an empty db name, and restore with an empty file
argument all exit with status 1, leave the filesystem exactly as it was,
and launch no external process. -/
theorem c8_validation (cod : Codec) (benv : BackupEnv) (renv : RestoreEnv)
    (dbName dbUser dbHost backupDir logFile file : String) (retentionDays : Int)
    (fs fs2 : FS) :
    runBackup cod benv "" dbUser dbHost backupDir logFile retentionDays fs = ⟨1, fs, 0⟩ ∧
    (pathExists fs backupDir = false →
      runBackup cod benv dbName dbUser dbHost backupDir logFile retentionDays fs =
        ⟨1, fs, 0⟩) ∧
    runRestore cod renv "" dbUser dbHost file logFile fs2 = .exited 1 fs2 0 ∧
    runRestore cod renv dbName dbUser dbHost "" logFile fs2 = .exited 1 fs2 0 := by
  refine ⟨by simp [runBackup], fun h => ?_, by simp [runRestore], by simp [runRestore]⟩
  by_cases hd : dbName = ""
  · simp [runBackup, hd]
  · simp [runBackup, hd, h]

/-- C8 witness: backing up into the absent directory /nodir exits 1 with an
untouched filesystem and no process launched. -/
theorem c8_validation_witness :
    runBackup idCodec ⟨true, true, true, [], ⟨none, none, none, none⟩,
        ⟨2025, 1, 1, 0, 0, 0⟩, 0, 0⟩ "d" "postgres" "localhost" "/nodir" "/log" 7 [] =
      ⟨1, [], 0⟩ :=
  (c8_validation idCodec ⟨true, true, true, [], ⟨none, none, none, none⟩,
      ⟨2025, 1, 1, 0, 0, 0⟩, 0, 0⟩ ⟨true, ⟨none, none, none, none⟩, true, 0⟩
    "d" "postgres" "localhost" "/nodir" "/log" "" 7 [] []).2.1 rfl

/-- C6: compress-then-decompress round-trip on file contents: for any codec
whose byte-level decompression inverts its compression (the gzip format's
guarantee — the codec itself is Go standard-library code outside this
repository, so it stays abstract), compressing a file with compressFile and
decompressing the result with decompressFile succeeds and yields exactly the
original bytes, whatever the (discarded) gzip-writer close outcome was. -/
theorem c6_roundtrip (cod : Codec) (hrt : ∀ b, cod.dec (cod.comp b) = b)
    (ce : Option String) (fs : FS) (src dst dst2 : String) (b : List Nat)
    (t1 t2 : Nat) (hsrc : readFile fs src = some b) :
    (compressFile cod ⟨none, none, none, ce⟩ fs src dst t1).1 = none ∧
    (decompressFile cod ⟨none, none, none, none⟩
        (compressFile cod ⟨none, none, none, ce⟩ fs src dst t1).2 dst dst2 t2).1 = none ∧
    readFile (decompressFile cod ⟨none, none, none, none⟩
        (compressFile cod ⟨none, none, none, ce⟩ fs src dst t1).2 dst dst2 t2).2 dst2 =
      some b := by
  refine ⟨rfl, rfl, ?_⟩
  simp only [compressFile, decompressFile]
  rw [readFile_setFile_same, readFile_setFile_same, hsrc]
  simp [hrt]

/-- C6 witness: the bytes [1, 2, 3] survive the round-trip through a concrete
invertible codec. -/
theorem c6_roundtrip_witness :
    (compressFile revCodec ⟨none, none, none, none⟩ [⟨"/s", false, 0, [1, 2, 3]⟩]
        "/s" "/s.gz" 1).1 = none ∧
    (decompressFile revCodec ⟨none, none, none, none⟩
        (compressFile revCodec ⟨none, none, none, none⟩ [⟨"/s", false, 0, [1, 2, 3]⟩]
          "/s" "/s.gz" 1).2 "/s.gz" "/out" 2).1 = none ∧
    readFile (decompressFile revCodec ⟨none, none, none, none⟩
        (compressFile revCodec ⟨none, none, none, none⟩ [⟨"/s", false, 0, [1, 2, 3]⟩]
          "/s" "/s.gz" 1).2 "/s.gz" "/out" 2).2 "/out" =
      some [1, 2, 3] :=
  c6_roundtrip revCodec (fun b => List.reverse_reverse b) none
    [⟨"/s", false, 0, [1, 2, 3]⟩] "/s" "/s.gz" "/out" [1, 2, 3] 1 2 rfl

/-- C3: in every backup run that passes validation, opens its log, creates the
dump file and then sees pg_dump fail, the partially written uncompressed dump
file is deleted and the run exits 1 having launched the one failed external
process; provided no file already sat at the artifact path and the log is not
configured at the artifact path, no compressed artifact exists afterward
either (the compression stage is never reached). -/
theorem c3_dump_failure_cleanup (cod : Codec) (env : BackupEnv)
    (dbName dbUser dbHost backupDir logFile : String) (retentionDays : Int) (fs : FS)
    (hdb : dbName ≠ "") (hdir : pathExists fs backupDir = true)
    (hlog : env.logOpenOk = true) (hcreate : env.createOk = true)
    (hdump : env.dumpOk = false)
    (hgz : pathExists fs (compressedFilePath backupDir dbName env.nowTS) = false)
    (hlogne : logFile ≠ compressedFilePath backupDir dbName env.nowTS) :
    (runBackup cod env dbName dbUser dbHost backupDir logFile retentionDays fs).exit = 1 ∧
    pathExists (runBackup cod env dbName dbUser dbHost backupDir logFile retentionDays fs).fs
      (backupFilePath backupDir dbName env.nowTS) = false ∧
    pathExists (runBackup cod env dbName dbUser dbHost backupDir logFile retentionDays fs).fs
      (compressedFilePath backupDir dbName env.nowTS) = false ∧
    (runBackup cod env dbName dbUser dbHost backupDir logFile retentionDays fs).procs = 1 := by
  have hrun : runBackup cod env dbName dbUser dbHost backupDir logFile retentionDays fs =
      ⟨1, removePath (setFile (ensureFile fs logFile env.now)
          (backupFilePath backupDir dbName env.nowTS) [] env.now)
        (backupFilePath backupDir dbName env.nowTS), 1⟩ := by
    simp [runBackup, hdb, hdir, hlog, hcreate, hdump]
  rw [hrun]
  refine ⟨rfl, pathExists_removePath_self _ _, ?_, rfl⟩
  rw [pathExists_removePath_of_ne _ _ _ (compressedFilePath_ne backupDir dbName env.nowTS),
    pathExists_setFile_of_ne _ _ _ _ _ (compressedFilePath_ne backupDir dbName env.nowTS),
    pathExists_ensureFile_of_ne _ _ _ _ (fun hc => hlogne hc.symm)]
  exact hgz

/-- C3 witness: a concrete failed dump into /b leaves neither the dump file
nor the artifact behind. -/
theorem c3_dump_failure_cleanup_witness :
    (runBackup idCodec ⟨true, true, false, [5], ⟨none, none, none, none⟩,
        ⟨2025, 8, 9, 11, 42, 0⟩, 1000, 1001⟩ "d" "postgres" "localhost" "/b" "/log" 7
        [⟨"/b", true, 0, []⟩]).exit = 1 ∧
    pathExists (runBackup idCodec ⟨true, true, false, [5], ⟨none, none, none, none⟩,
        ⟨2025, 8, 9, 11, 42, 0⟩, 1000, 1001⟩ "d" "postgres" "localhost" "/b" "/log" 7
        [⟨"/b", true, 0, []⟩]).fs
      (backupFilePath "/b" "d" ⟨2025, 8, 9, 11, 42, 0⟩) = false ∧
    pathExists (runBackup idCodec ⟨true, true, false, [5], ⟨none, none, none, none⟩,
        ⟨2025, 8, 9, 11, 42, 0⟩, 1000, 1001⟩ "d" "postgres" "localhost" "/b" "/log" 7
        [⟨"/b", true, 0, []⟩]).fs
      (compressedFilePath "/b" "d" ⟨2025, 8, 9, 11, 42, 0⟩) = false ∧
    (runBackup idCodec ⟨true, true, false, [5], ⟨none, none, none, none⟩,
        ⟨2025, 8, 9, 11, 42, 0⟩, 1000, 1001⟩ "d" "postgres" "localhost" "/b" "/log" 7
        [⟨"/b", true, 0, []⟩]).procs = 1 :=
  c3_dump_failure_cleanup idCodec ⟨true, true, false, [5], ⟨none, none, none, none⟩,
      ⟨2025, 8, 9, 11, 42, 0⟩, 1000, 1001⟩ "d" "postgres" "localhost" "/b" "/log" 7
    [⟨"/b", true, 0, []⟩] (by decide) (by decide) rfl rfl rfl (by decide) (by decide)

/-- C4: in every backup run in which the dump succeeds but compression fails
(at opening the source, creating the destination, or copying through the
compressor), the run exits with status 1 and the now-orphaned uncompressed
intermediate dump file is still on disk: no path of the source removes it. -/
theorem c4_orphan_dump_on_compress_failure (cod : Codec) (env : BackupEnv)
    (dbName dbUser dbHost backupDir logFile : String) (retentionDays : Int) (fs : FS)
    (hdb : dbName ≠ "") (hdir : pathExists fs backupDir = true)
    (hlog : env.logOpenOk = true) (hcreate : env.createOk = true)
    (hdump : env.dumpOk = true)
    (hcerr : env.cenv.openErr.orElse (fun _ => env.cenv.createErr.orElse
      (fun _ => env.cenv.copyErr)) ≠ none) :
    (runBackup cod env dbName dbUser dbHost backupDir logFile retentionDays fs).exit = 1 ∧
    pathExists (runBackup cod env dbName dbUser dbHost backupDir logFile retentionDays fs).fs
      (backupFilePath backupDir dbName env.nowTS) = true := by
  rcases h1 : env.cenv.openErr.orElse (fun _ => env.cenv.createErr.orElse
    (fun _ => env.cenv.copyErr)) with _ | e
  · exact absurd h1 hcerr
  · constructor
    · simp [runBackup, hdb, hdir, hlog, hcreate, hdump, compressFile_fst, h1]
    · simp [runBackup, hdb, hdir, hlog, hcreate, hdump, compressFile_fst, h1]
      exact pathExists_compressFile_src cod env.cenv _ _ _ _
        (fun hc => append_gz_ne _ hc.symm)
        (pathExists_setFile_self _ _ _ _)

/-- C4 witness: a concrete run in which pg_dump succeeds and the copy stage
of compression fails exits 1 with /b/d_2025-08-09_114200.dump still on disk. -/
theorem c4_orphan_dump_on_compress_failure_witness :
    (runBackup idCodec ⟨true, true, true, [5], ⟨none, none, some "copy failed", none⟩,
        ⟨2025, 8, 9, 11, 42, 0⟩, 1000, 1001⟩ "d" "postgres" "localhost" "/b" "/log" 7
        [⟨"/b", true, 0, []⟩]).exit = 1 ∧
    pathExists (runBackup idCodec ⟨true, true, true, [5], ⟨none, none, some "copy failed", none⟩,
        ⟨2025, 8, 9, 11, 42, 0⟩, 1000, 1001⟩ "d" "postgres" "localhost" "/b" "/log" 7
        [⟨"/b", true, 0, []⟩]).fs
      (backupFilePath "/b" "d" ⟨2025, 8, 9, 11, 42, 0⟩) = true :=
  c4_orphan_dump_on_compress_failure idCodec
    ⟨true, true, true, [5], ⟨none, none, some "copy failed", none⟩,
      ⟨2025, 8, 9, 11, 42, 0⟩, 1000, 1001⟩ "d" "postgres" "localhost" "/b" "/log" 7
    [⟨"/b", true, 0, []⟩] (by decide) (by decide) rfl rfl rfl (by decide)

/-- C2 amended: for every backup run that completes successfully, the
uncompressed intermediate dump file backupDir/db_timestamp.dump no longer
exists on disk; and the compressed artifact backupDir/db_timestamp.dump.gz
does exist afterward PROVIDED the retention sweep's clock reading is at most
retentionDays·86400 seconds after the run's start (true of every run with
retentionDays at least 1 that takes under a day) — without that proviso the
sweep itself deletes the fresh artifact, as the retentionDays = 0
counterexample shows. -/
theorem c2_success_artifacts (cod : Codec) (env : BackupEnv)
    (dbName dbUser dbHost backupDir logFile : String) (retentionDays : Int) (fs : FS)
    (hdb : dbName ≠ "") (hdir : pathExists fs backupDir = true)
    (hlog : env.logOpenOk = true) (hcreate : env.createOk = true)
    (hdump : env.dumpOk = true)
    (hopen : env.cenv.openErr = none) (hcr : env.cenv.createErr = none)
    (hcp : env.cenv.copyErr = none)
    (hsweep : env.sweepNow ≤ (env.now : Int) + retentionDays * 86400) :
    (runBackup cod env dbName dbUser dbHost backupDir logFile retentionDays fs).exit = 0 ∧
    pathExists (runBackup cod env dbName dbUser dbHost backupDir logFile retentionDays fs).fs
      (backupFilePath backupDir dbName env.nowTS) = false ∧
    pathExists (runBackup cod env dbName dbUser dbHost backupDir logFile retentionDays fs).fs
      (compressedFilePath backupDir dbName env.nowTS) = true := by
  refine ⟨?_, ?_, ?_⟩ <;>
    simp [runBackup, compressFile, hdb, hdir, hlog, hcreate, hdump, hopen, hcr, hcp]
  · exact pathExists_cleanup_of_not_exists _ _ _ _ _ (pathExists_removePath_self _ _)
  · have hlt : ¬((env.now : Int) < env.sweepNow - retentionDays * 86400) := by omega
    rw [compressedFilePath_def]
    exact pathExists_cleanup_keep _ backupDir retentionDays env.sweepNow
      ⟨backupFilePath backupDir dbName env.nowTS ++ ".gz", false, env.now,
        cod.comp ((readFile (setFile (setFile (ensureFile fs logFile env.now)
            (backupFilePath backupDir dbName env.nowTS) [] env.now)
          (backupFilePath backupDir dbName env.nowTS) env.dumpBytes env.now)
          (backupFilePath backupDir dbName env.nowTS)).getD [])⟩
      ((mem_removePath _ _ _).2 ⟨mem_setFile_self _ _ _ _, append_gz_ne _⟩)
      (by simp [sweepTarget, hlt])

/-- C2 amended witness: a concrete fully successful 7-day-retention run ends
with the artifact present and the intermediate dump gone. -/
theorem c2_success_artifacts_witness :
    (runBackup idCodec ⟨true, true, true, [9], ⟨none, none, none, none⟩,
        ⟨2025, 8, 9, 11, 42, 0⟩, 1000, 1001⟩ "d" "postgres" "localhost" "/b" "/log" 7
        [⟨"/b", true, 0, []⟩]).exit = 0 ∧
    pathExists (runBackup idCodec ⟨true, true, true, [9], ⟨none, none, none, none⟩,
        ⟨2025, 8, 9, 11, 42, 0⟩, 1000, 1001⟩ "d" "postgres" "localhost" "/b" "/log" 7
        [⟨"/b", true, 0, []⟩]).fs
      (backupFilePath "/b" "d" ⟨2025, 8, 9, 11, 42, 0⟩) = false ∧
    pathExists (runBackup idCodec ⟨true, true, true, [9], ⟨none, none, none, none⟩,
        ⟨2025, 8, 9, 11, 42, 0⟩, 1000, 1001⟩ "d" "postgres" "localhost" "/b" "/log" 7
        [⟨"/b", true, 0, []⟩]).fs
      (compressedFilePath "/b" "d" ⟨2025, 8, 9, 11, 42, 0⟩) = true :=
  c2_success_artifacts idCodec ⟨true, true, true, [9], ⟨none, none, none, none⟩,
      ⟨2025, 8, 9, 11, 42, 0⟩, 1000, 1001⟩ "d" "postgres" "localhost" "/b" "/log" 7
    [⟨"/b", true, 0, []⟩] (by decide) (by decide) rfl rfl rfl rfl rfl rfl (by decide)

end Pgtool
